import Mathlib

/-!
Verification of the node-provisioning and subscription-publishing script
(`src/app.py`).  Every definition below is a shallow embedding of a piece of
the Python source; doc comments cite the source lines they transcribe.
Python strings are modelled as `String`, Python string truthiness as
`s ≠ ""`, fallible reads as `Option`, and the ambient world (network
results, filesystem, child-process exits) as explicit parameters.
-/

/-- Python `str.strip()` (used at `app.py:118` on the identity file
contents): drop leading and trailing whitespace. Modelled on the char list
because `String.trim` does not reduce in the kernel. -/
def pyStrip (s : String) : String :=
  ⟨((s.data.dropWhile Char.isWhitespace).reverse.dropWhile Char.isWhitespace).reverse⟩

/-- Helper for `pySplit`: walk the characters, accumulating the current
token (in reverse); whitespace ends a token, runs of whitespace produce no
empty tokens — exactly Python `str.split()` with no argument. -/
def pySplitAux : List Char → List Char → List String
  | [], acc => if acc.isEmpty then [] else [⟨acc.reverse⟩]
  | c :: cs, acc =>
    if c.isWhitespace then
      if acc.isEmpty then pySplitAux cs [] else (⟨acc.reverse⟩ : String) :: pySplitAux cs []
    else pySplitAux cs (c :: acc)

/-- Python `PORTS_STRING.split()` (`app.py:90`): split on whitespace runs,
discarding empty tokens. -/
def pySplit (s : String) : List String := pySplitAux s.data []

/-- Decimal digit accumulator for `pyInt`. Returns `none` on any
non-digit character. -/
def parseDigitsAux : List Char → Nat → Option Nat
  | [], acc => some acc
  | c :: cs, acc =>
    if c.isDigit then parseDigitsAux cs (acc * 10 + (c.toNat - 48)) else none

/-- Python `int(s)` as used on port strings (`app.py:308` etc.). On a
non-numeric or empty string Python raises; the script only applies `int`
to non-empty tokens of the port list, and the model returns 0 there. -/
def pyInt (s : String) : Int :=
  match parseDigitsAux s.data 0 with
  | some n => if s.data.isEmpty then 0 else (n : Int)
  | none => 0

/-- Substring test on char lists: `needle` occurs somewhere in the
haystack. Mirrors Python `sub in s` (`app.py:271`), including the
convention that the empty string occurs in every string. -/
def isSubListOf (needle : List Char) : List Char → Bool
  | [] => needle.isEmpty
  | c :: cs => needle.isPrefixOf (c :: cs) || isSubListOf needle cs

/-- Python `sub in s` on strings. -/
def strContains (s sub : String) : Bool := isSubListOf sub.data s.data

/-- Boolean string-prefix test (for "line starting with `tuic://`"). -/
def strStartsWith (s p : String) : Bool := p.data.isPrefixOf s.data

/-- First character of a string, used to separate URI schemes. -/
def firstChar (s : String) : Option Char := s.data.head?

/-- The derived port assignment of `app.py:97-113`: the four port
variables `TUIC_PORT`, `HY2_PORT`, `REALITY_PORT`, `HTTP_PORT` and the
`SINGLE_PORT_MODE` flag. An empty string means the corresponding inbound
is disabled (Python truthiness). -/
structure PortPlan where
  tuic : String
  hy2 : String
  reality : String
  http : String
  single : Bool
deriving DecidableEq, Repr

/-- `app.py:92-113`: from `AVAILABLE_PORTS` and the compiled-in
`SINGLE_PORT_UDP` choice ("hy2" unless set to "tuic") derive the port
plan. The empty list makes the script `sys.exit(1)` (`app.py:92-94`),
modelled as `none`. One port: that port is the chosen UDP protocol's and
the HTTP server's, Reality stays disabled. Two or more: TUIC and Reality
both take element 0, HY2 and HTTP take element 1. -/
def portPlan : List String → String → Option PortPlan
  | [], _ => none
  | [p], choice =>
    some { tuic := if choice = "tuic" then p else ""
           hy2 := if choice = "tuic" then "" else p
           reality := ""
           http := p
           single := true }
  | p0 :: p1 :: _, _ =>
    some { tuic := p0, hy2 := p1, reality := p0, http := p1, single := false }

/-- TUIC subscription line (`app.py:245-247`). -/
def mkTuicLine (uuid ip port isp : String) : String :=
  "tuic://" ++ uuid ++ ":admin@" ++ ip ++ ":" ++ port ++
    "?sni=www.bing.com&alpn=h3&congestion_control=bbr&allowInsecure=1#TUIC-" ++ isp

/-- Hysteria2 subscription line (`app.py:249-251`). -/
def mkHy2Line (uuid ip port isp : String) : String :=
  "hysteria2://" ++ uuid ++ "@" ++ ip ++ ":" ++ port ++
    "/?sni=www.bing.com&insecure=1#Hysteria2-" ++ isp

/-- Reality subscription line (`app.py:253-255`). -/
def mkRealityLine (uuid ip port pk isp : String) : String :=
  "vless://" ++ uuid ++ "@" ++ ip ++ ":" ++ port ++
    "?encryption=none&flow=xtls-rprx-vision&security=reality&sni=www.nazhumi.com&fp=chrome&pbk=" ++
    pk ++ "&type=tcp#Reality-" ++ isp

/-- Argo tunnel subscription line (`app.py:257-259`). -/
def mkArgoLine (uuid cf domain isp : String) : String :=
  "vless://" ++ uuid ++ "@" ++ cf ++ ":443?encryption=none&security=tls&sni=" ++ domain ++
    "&type=ws&host=" ++ domain ++ "&path=%2F" ++ uuid ++ "-vless#Argo-" ++ isp

/-- `generate_sub` (`app.py:242-259`): the ordered list of URI lines, one
per protocol whose port (or, for Argo, domain) is a non-empty string. -/
def generate_sub (pl : PortPlan) (uuid ip isp pk cf argoDomain : String) : List String :=
  (if pl.tuic ≠ "" then [mkTuicLine uuid ip pl.tuic isp] else []) ++
  (if pl.hy2 ≠ "" then [mkHy2Line uuid ip pl.hy2 isp] else []) ++
  (if pl.reality ≠ "" then [mkRealityLine uuid ip pl.reality pk isp] else []) ++
  (if argoDomain ≠ "" then [mkArgoLine uuid cf argoDomain isp] else [])

/-- `app.py:263`: the text written to `list.txt` and `sub.txt`. -/
def subDocument (lines : List String) : String := String.intercalate "\n" lines ++ "\n"

/-- JSON values, for the sing-box configuration document built at
`app.py:301-373`. -/
inductive J where
  | jstr : String → J
  | jnum : Int → J
  | jbool : Bool → J
  | jarr : List J → J
  | jobj : List (String × J) → J

/-- The `inbounds` list of `app.py:301-367`: TUIC, Hysteria2 and Reality
inbounds are appended only when their port string is non-empty; the
loopback WebSocket (Argo) inbound is always appended last. -/
def buildInbounds (pl : PortPlan) (uuid certPath keyPath privateKey : String)
    (argoPort : Int) : List J :=
  (if pl.tuic ≠ "" then
    [J.jobj [("type", J.jstr "tuic"), ("tag", J.jstr "tuic-in"),
      ("listen", J.jstr "::"), ("listen_port", J.jnum (pyInt pl.tuic)),
      ("users", J.jarr [J.jobj [("uuid", J.jstr uuid), ("password", J.jstr "admin")]]),
      ("congestion_control", J.jstr "bbr"),
      ("tls", J.jobj [("enabled", J.jbool true), ("alpn", J.jarr [J.jstr "h3"]),
        ("certificate_path", J.jstr certPath), ("key_path", J.jstr keyPath)])]]
   else []) ++
  (if pl.hy2 ≠ "" then
    [J.jobj [("type", J.jstr "hysteria2"), ("tag", J.jstr "hy2-in"),
      ("listen", J.jstr "::"), ("listen_port", J.jnum (pyInt pl.hy2)),
      ("users", J.jarr [J.jobj [("password", J.jstr uuid)]]),
      ("tls", J.jobj [("enabled", J.jbool true), ("alpn", J.jarr [J.jstr "h3"]),
        ("certificate_path", J.jstr certPath), ("key_path", J.jstr keyPath)])]]
   else []) ++
  (if pl.reality ≠ "" then
    [J.jobj [("type", J.jstr "vless"), ("tag", J.jstr "vless-reality-in"),
      ("listen", J.jstr "::"), ("listen_port", J.jnum (pyInt pl.reality)),
      ("users", J.jarr [J.jobj [("uuid", J.jstr uuid), ("flow", J.jstr "xtls-rprx-vision")]]),
      ("tls", J.jobj [("enabled", J.jbool true), ("server_name", J.jstr "www.nazhumi.com"),
        ("reality", J.jobj [("enabled", J.jbool true),
          ("handshake", J.jobj [("server", J.jstr "www.nazhumi.com"), ("server_port", J.jnum 443)]),
          ("private_key", J.jstr privateKey), ("short_id", J.jarr [J.jstr ""])])])]]
   else []) ++
  [J.jobj [("type", J.jstr "vless"), ("tag", J.jstr "vless-argo-in"),
    ("listen", J.jstr "127.0.0.1"), ("listen_port", J.jnum argoPort),
    ("users", J.jarr [J.jobj [("uuid", J.jstr uuid)]]),
    ("transport", J.jobj [("type", J.jstr "ws"), ("path", J.jstr ("/" ++ uuid ++ "-vless"))])]]

/-- The whole configuration document (`app.py:369-373`). -/
def buildConfig (pl : PortPlan) (uuid certPath keyPath privateKey : String)
    (argoPort : Int) : J :=
  J.jobj [("log", J.jobj [("level", J.jstr "warn")]),
    ("inbounds", J.jarr (buildInbounds pl uuid certPath keyPath privateKey argoPort)),
    ("outbounds", J.jarr [J.jobj [("type", J.jstr "direct"), ("tag", J.jstr "direct")]])]

/-- Extract the `tag` field of an inbound object. -/
def tagOf (j : J) : Option String :=
  match j with
  | J.jobj fields =>
    match fields.lookup "tag" with
    | some (J.jstr s) => some s
    | _ => none
  | _ => none

/-- The list of inbound tags of a configuration's inbound list. -/
def inboundTags (l : List J) : List String := l.filterMap tagOf

/-- An HTTP response as produced by `SubHandler.do_GET`: status code,
optional `Content-Type` header, body bytes (modelled as a string). -/
structure HttpResponse where
  status : Nat
  contentType : Option String
  body : String
deriving DecidableEq, Repr

/-- The route test of `app.py:271`: the request path contains `/sub` or
`/` followed by the node identity. -/
def subMatch (uuid path : String) : Bool :=
  strContains path "/sub" || strContains path ("/" ++ uuid)

/-- `SubHandler.do_GET` (`app.py:270-282`). `subFile` is the current
state of `sub.txt`: `some bytes` when readable, `none` when missing or
unreadable. On a matching path the 200 status and content type are sent
before the read is attempted, so a failed read still yields a 200 with
the literal body `error`. Any other path gets a 404 with body `404` and
no content type. -/
def do_GET (uuid path : String) (subFile : Option String) : HttpResponse :=
  if subMatch uuid path then
    { status := 200
      contentType := some "text/plain; charset=utf-8"
      body := match subFile with | some b => b | none => "error" }
  else
    { status := 404, contentType := none, body := "404" }

/-- `download_file` (`app.py:133-150`). The destination file state is
`none` (absent) or `some exec` (present, with its executable bit).
`net` is whether the streamed download would succeed; `residue` is the
file state a failed attempt leaves behind (absent if `urlopen` failed
before the file was opened, present-but-not-executable if the write
started — `os.chmod` is only reached on success, so the residue is never
executable). Returns (result, new file state, number of download
attempts performed). -/
def download_file (net : Bool) (residue : Option Bool) (dest : Option Bool) :
    Bool × Option Bool × Nat :=
  match dest with
  | some true => (true, some true, 0)
  | _ => if net then (true, some true, 1) else (false, residue, 1)

/-- Contents of the persistent state directory `.npm`, restricted to the
identity file `uuid.txt` (`app.py:116`): `none` when absent, otherwise
the file's text. -/
structure Store where
  uuidFile : Option String
deriving DecidableEq, Repr

/-- `app.py:47-49`: on every startup the whole state directory is removed
with `shutil.rmtree` and recreated empty, so the identity file is gone. -/
def wipeStore (_s : Store) : Store := { uuidFile := none }

/-- `app.py:117-121`: read-if-exists (stripping whitespace), else persist
the freshly generated UUID (`fresh` stands for the value `uuid.uuid4()`
produced this run). -/
def loadOrCreateUUID (s : Store) (fresh : String) : String × Store :=
  match s.uuidFile with
  | some u => (pyStrip u, s)
  | none => (fresh, { uuidFile := some fresh })

/-- One program invocation's identity handling over the state directory:
the startup wipe of `app.py:47-49` followed by the load-or-create of
`app.py:117-121`. Returns the identity used by that invocation (in both
the generated configuration and the subscription) and the directory
state it leaves behind. -/
def invocationUUID (s : Store) (fresh : String) : String × Store :=
  loadOrCreateUUID (wipeStore s) fresh

/-- The startup environment of one run, covering every input the exit
status depends on: the two public-IP probe results (`app.py:77`, empty
string = failure), the `SERVER_PORT` string (`app.py:89`), whether each
of the two asset downloads succeeds (`app.py:153-156`), whether the
sing-box child has already exited at the 2-second liveness check
(`app.py:385`, `some code`), and the child's eventual exit status
(`app.py:488`). -/
structure Env where
  ipPrimary : String
  ipSecondary : String
  serverPort : String
  sbDownloadOk : Bool
  argoDownloadOk : Bool
  sbEarlyExit : Option Int
  sbWaitCode : Int
deriving Repr

/-- `app.py:77`: `fetch_text(primary) or fetch_text(secondary)`. -/
def publicIPOf (e : Env) : String :=
  if e.ipPrimary ≠ "" then e.ipPrimary else e.ipSecondary

/-- `app.py:89-90`: the port token list. -/
def availablePortsOf (e : Env) : List String := pySplit e.serverPort

/-- Whether any of the four fatal startup preconditions of
`app.py:78-80, 92-94, 153-156, 385-397` fails. -/
def fatalStartup (e : Env) : Bool :=
  publicIPOf e = "" || (availablePortsOf e).isEmpty ||
  !e.sbDownloadOk || !e.argoDownloadOk || e.sbEarlyExit.isSome

/-- The program's own exit status. Each fatal precondition runs
`sys.exit(1)` in source order; otherwise the script blocks in
`sb_proc.wait()` (`app.py:488`), discards the returned status, falls off
the end of the module and so exits with status 0. -/
def programExit (e : Env) : Int :=
  if publicIPOf e = "" then 1
  else if (availablePortsOf e).isEmpty then 1
  else if !e.sbDownloadOk then 1
  else if !e.argoDownloadOk then 1
  else if e.sbEarlyExit.isSome then 1
  else 0

/-- Character class `[a-zA-Z0-9-]` of the tunnel-hostname pattern
(`app.py:447`). -/
def tunnelChar (c : Char) : Bool := c.isAlpha || c.isDigit || c == '-'

/-- Attempt the pattern `https://[a-zA-Z0-9-]+\.trycloudflare\.com` at
the head of `cs`. The character class excludes `.`, so the greedy run is
forced and the regex engine's backtracking never helps: the unique match
at a position is `https://` + maximal class run + `.trycloudflare.com`. -/
def tryTunnelMatch (cs : List Char) : Option (List Char) :=
  if "https://".data.isPrefixOf cs then
    if !((cs.drop 8).takeWhile tunnelChar).isEmpty &&
        ".trycloudflare.com".data.isPrefixOf ((cs.drop 8).dropWhile tunnelChar) then
      some ("https://".data ++ (cs.drop 8).takeWhile tunnelChar ++ ".trycloudflare.com".data)
    else none
  else none

/-- `re.search` (`app.py:447`): leftmost match of the tunnel-URL pattern. -/
def searchTunnelAux : List Char → Option (List Char)
  | [] => none
  | c :: cs =>
    match tryTunnelMatch (c :: cs) with
    | some m => some m
    | none => searchTunnelAux cs

/-- Leftmost tunnel-URL match in a log snapshot, as a string. -/
def searchTunnel (s : String) : Option String :=
  (searchTunnelAux s.data).map fun cs => ⟨cs⟩

/-- `m.group(0).replace("https://", "")` (`app.py:449`). A match always
starts with `https://` and cannot contain a second occurrence (the class
chars exclude `:` and `/`), so replace-all is exactly dropping the
8-character prefix. -/
def stripHttps (s : String) : String :=
  if "https://".data.isPrefixOf s.data then ⟨s.data.drop 8⟩ else s

/-- The polling loop of `app.py:443-452`. `log k` is the readable
contents of `argo.log` at the k-th poll (`none` models a read that
raises, which the `except: pass` swallows). `k` polls have happened so
far, `remaining` are left, `domain` is the current `ARGO_DOMAIN` value.
Returns the final domain and the total number of polls performed. -/
def runPolls (log : Nat → Option String) : Nat → Nat → String → String × Nat
  | k, 0, domain => (domain, k)
  | k, remaining + 1, domain =>
    match (log (k + 1)).bind searchTunnel with
    | some m => (stripHttps m, k + 1)
    | none => runPolls log (k + 1) remaining domain

/-- Quick-tunnel domain resolution (`app.py:403, 443-452`): `ARGO_DOMAIN`
starts as the `ARGO_DOMAIN` environment override and the log is polled up
to 30 times, stopping at the first match. -/
def quickTunnelResolve (log : Nat → Option String) (override : String) : String × Nat :=
  runPolls log 0 30 override

/-- Pairwise distinctness of the three protocol ports of a plan, the
property claimed for multi-port mode. -/
def distinctPorts (pl : PortPlan) : Bool :=
  pl.tuic ≠ pl.hy2 && pl.tuic ≠ pl.reality && pl.hy2 ≠ pl.reality

theorem strData_append (s t : String) : (s ++ t).data = s.data ++ t.data := rfl

theorem mem_ite_singleton {α : Type} (c : Prop) [Decidable c] (x y : α) :
    (y ∈ if c then [x] else ([] : List α)) ↔ c ∧ y = x := by
  split
  · simp [List.mem_singleton]; intro _; assumption
  · simp; intro hc; exact absurd hc (by assumption)

theorem ne_of_firstChar {s t : String} (h : firstChar s ≠ firstChar t) : s ≠ t :=
  fun he => h (by rw [he])

theorem firstChar_mkTuicLine (u ip p i : String) :
    firstChar (mkTuicLine u ip p i) = some 't' := rfl

theorem firstChar_mkHy2Line (u ip p i : String) :
    firstChar (mkHy2Line u ip p i) = some 'h' := rfl

theorem firstChar_mkRealityLine (u ip p pk i : String) :
    firstChar (mkRealityLine u ip p pk i) = some 'v' := rfl

theorem firstChar_mkArgoLine (u cf d i : String) :
    firstChar (mkArgoLine u cf d i) = some 'v' := rfl

theorem mkTuic_ne_mkHy2 (u ip p i u2 ip2 p2 i2 : String) :
    mkTuicLine u ip p i ≠ mkHy2Line u2 ip2 p2 i2 :=
  ne_of_firstChar (by rw [firstChar_mkTuicLine, firstChar_mkHy2Line]; decide)

theorem mkTuic_ne_mkReality (u ip p i u2 ip2 p2 pk i2 : String) :
    mkTuicLine u ip p i ≠ mkRealityLine u2 ip2 p2 pk i2 :=
  ne_of_firstChar (by rw [firstChar_mkTuicLine, firstChar_mkRealityLine]; decide)

theorem mkTuic_ne_mkArgo (u ip p i u2 cf d i2 : String) :
    mkTuicLine u ip p i ≠ mkArgoLine u2 cf d i2 :=
  ne_of_firstChar (by rw [firstChar_mkTuicLine, firstChar_mkArgoLine]; decide)

theorem mkHy2_ne_mkReality (u ip p i u2 ip2 p2 pk i2 : String) :
    mkHy2Line u ip p i ≠ mkRealityLine u2 ip2 p2 pk i2 :=
  ne_of_firstChar (by rw [firstChar_mkHy2Line, firstChar_mkRealityLine]; decide)

theorem mkHy2_ne_mkArgo (u ip p i u2 cf d i2 : String) :
    mkHy2Line u ip p i ≠ mkArgoLine u2 cf d i2 :=
  ne_of_firstChar (by rw [firstChar_mkHy2Line, firstChar_mkArgoLine]; decide)

theorem penult_of_append (P lit suf : List Char) (h1 : 1 < lit.length) :
    ((P ++ lit) ++ suf).reverse[suf.length + 1]? = lit.reverse[1]? := by
  rw [List.reverse_append, List.getElem?_append_right (by rw [List.length_reverse]; omega),
    List.length_reverse]
  have h2 : suf.length + 1 - suf.length = 1 := by omega
  rw [h2, List.reverse_append, List.getElem?_append_left (by rw [List.length_reverse]; omega)]

/-- The Reality line and the Argo line (same `isp` suffix, as in any one
`generate_sub` call) are never the same string: at distance `isp.length + 1`
from the right end one has the `y` of `#Reality-`, the other the `o` of
`#Argo-`. -/
theorem mkReality_ne_mkArgo (u ip rp pk isp u2 cf d : String) :
    mkRealityLine u ip rp pk isp ≠ mkArgoLine u2 cf d isp := by
  intro h
  have hd : (mkRealityLine u ip rp pk isp).data = (mkArgoLine u2 cf d isp).data :=
    congrArg String.data h
  simp only [mkRealityLine, mkArgoLine, strData_append] at hd
  have h1 := congrArg (fun l => l.reverse[isp.data.length + 1]?) hd
  simp only at h1
  rw [penult_of_append _ ("&type=tcp#Reality-".data) isp.data (by decide),
    penult_of_append _ ("-vless#Argo-".data) isp.data (by decide)] at h1
  exact absurd h1 (by decide)

theorem tuicPrefix_mkHy2 (u ip p i : String) :
    strStartsWith (mkHy2Line u ip p i) "tuic://" = false := rfl

theorem tuicPrefix_mkReality (u ip p pk i : String) :
    strStartsWith (mkRealityLine u ip p pk i) "tuic://" = false := rfl

theorem tuicPrefix_mkArgo (u cf d i : String) :
    strStartsWith (mkArgoLine u cf d i) "tuic://" = false := rfl

/-- The tag list of the generated inbounds: one tag per enabled protocol,
in source order, the Argo inbound always last. -/
theorem inboundTags_buildInbounds (pl : PortPlan) (uuid certP keyP pk : String) (ap : Int) :
    inboundTags (buildInbounds pl uuid certP keyP pk ap) =
      (if pl.tuic ≠ "" then ["tuic-in"] else []) ++
      (if pl.hy2 ≠ "" then ["hy2-in"] else []) ++
      (if pl.reality ≠ "" then ["vless-reality-in"] else []) ++ ["vless-argo-in"] := by
  by_cases h1 : pl.tuic = "" <;> by_cases h2 : pl.hy2 = "" <;> by_cases h3 : pl.reality = "" <;>
    simp [buildInbounds, inboundTags, tagOf, List.lookup, h1, h2, h3]

/-- C1 (amended): for every port list with two or more non-empty elements,
the derived plan enables the TUIC, Hysteria2 and Reality inbounds and binds
HTTP to the second element; TUIC and Reality are both configured on the
first element (so their ports always coincide — not pairwise distinct),
and Hysteria2 takes the second element, distinct from the other two
whenever the first two list elements differ. -/
theorem c1_multi_port_plan (p0 p1 : String) (rest : List String)
    (choice uuid certP keyP pk : String) (ap : Int) (h0 : p0 ≠ "") (h1 : p1 ≠ "") :
    ∃ pl, portPlan (p0 :: p1 :: rest) choice = some pl ∧
      pl.tuic = p0 ∧ pl.reality = p0 ∧ pl.hy2 = p1 ∧ pl.http = p1 ∧
      inboundTags (buildInbounds pl uuid certP keyP pk ap) =
        ["tuic-in", "hy2-in", "vless-reality-in", "vless-argo-in"] ∧
      (p0 ≠ p1 → pl.hy2 ≠ pl.tuic ∧ pl.hy2 ≠ pl.reality) := by
  refine ⟨_, rfl, rfl, rfl, rfl, rfl, ?_, ?_⟩
  · rw [inboundTags_buildInbounds]
    simp [h0, h1]
  · intro hne
    exact ⟨fun h => hne h.symm, fun h => hne h.symm⟩

theorem c1_multi_port_plan_witness :
    ∃ pl, portPlan ("443" :: "8443" :: []) "hy2" = some pl ∧
      pl.tuic = "443" ∧ pl.reality = "443" ∧ pl.hy2 = "8443" ∧ pl.http = "8443" ∧
      inboundTags (buildInbounds pl "u" "c.pem" "k.key" "pk" 8081) =
        ["tuic-in", "hy2-in", "vless-reality-in", "vless-argo-in"] ∧
      ("443" ≠ "8443" → pl.hy2 ≠ pl.tuic ∧ pl.hy2 ≠ pl.reality) :=
  c1_multi_port_plan "443" "8443" [] "hy2" "u" "c.pem" "k.key" "pk" 8081
    (by decide) (by decide)

/-- C1 counterexample: on the valid two-element port list `["443", "8443"]`
the plan's TUIC and Reality ports are both `"443"`, so the three configured
ports are not pairwise distinct. -/
theorem c1_pairwise_distinct_cex :
    (portPlan ["443", "8443"] "hy2").map distinctPorts = some false ∧
    (portPlan ["443", "8443"] "hy2").map PortPlan.tuic = some "443" ∧
    (portPlan ["443", "8443"] "hy2").map PortPlan.reality = some "443" := by
  decide

/-- C2 (amended): every fatal startup precondition failure (no public IP,
empty port list, either asset download failing, or the proxy engine child
having exited at the liveness check) exits with status 1; in every other
run the program blocks until the child terminates and then exits with
status 0, regardless of the child's own exit status. -/
theorem c2_exit_codes (e : Env) :
    (fatalStartup e = true → programExit e = 1) ∧
    (fatalStartup e = false → programExit e = 0) := by
  constructor <;> intro h
  · simp only [fatalStartup, Bool.or_eq_true, decide_eq_true_eq, Bool.not_eq_eq_eq_not,
      Bool.not_true, Option.isSome_iff_exists] at h
    rcases h with ((((h | h) | h) | h) | h)
    · simp [programExit, h]
    · simp [programExit, h]
    · simp [programExit, h]
    · simp [programExit, h]
    · obtain ⟨c, hc⟩ := h
      simp [programExit, hc]
  · simp only [fatalStartup, Bool.or_eq_false_iff, decide_eq_false_iff_not,
      Bool.not_eq_false'] at h
    obtain ⟨⟨⟨⟨h1, h2⟩, h3⟩, h4⟩, h5⟩ := h
    simp [programExit, h1, h2, h3, h4, h5]

theorem c2_exit_codes_witness :
    programExit ⟨"", "", "443", true, true, none, 0⟩ = 1 ∧
    programExit ⟨"198.51.100.2", "", "443", true, true, none, 3⟩ = 0 :=
  ⟨(c2_exit_codes ⟨"", "", "443", true, true, none, 0⟩).1 (by decide),
   (c2_exit_codes ⟨"198.51.100.2", "", "443", true, true, none, 3⟩).2 (by decide)⟩

/-- C2 counterexample: a run with every precondition satisfied whose
proxy-engine child eventually exits with status 7 — the program itself
exits 0 (`sb_proc.wait()` discards the status and the script falls off the
end), so its exit status does not equal the child's. -/
theorem c2_exit_mirrors_child_cex :
    fatalStartup ⟨"203.0.113.7", "", "443 8443", true, true, none, 7⟩ = false ∧
    programExit ⟨"203.0.113.7", "", "443 8443", true, true, none, 7⟩ = 0 ∧
    programExit ⟨"203.0.113.7", "", "443 8443", true, true, none, 7⟩ ≠
      Env.sbWaitCode ⟨"203.0.113.7", "", "443 8443", true, true, none, 7⟩ := by
  decide

/-- C3 (amended): within one invocation the identity is loaded-or-created
and persisted, and the one value returned is what both the generated
configuration and the subscription use; but because the startup wipe
(`shutil.rmtree`) empties the state directory before the identity file is
consulted, every invocation finds no file and uses its freshly generated
UUID — the persisted value never survives into the next invocation. -/
theorem c3_identity_fresh_each_run (s : Store) (fresh : String) :
    (invocationUUID s fresh).1 = fresh ∧
    (invocationUUID s fresh).2.uuidFile = some fresh := by
  simp [invocationUUID, wipeStore, loadOrCreateUUID]

/-- C3 counterexample: two consecutive invocations over the same state
directory. The first generates and persists `"u1"`; the second, whose
fresh UUID is `"u2"`, uses `"u2"` — not the identity the first persisted,
because the startup wipe destroyed the identity file. -/
theorem c3_identity_persistence_cex :
    (invocationUUID ⟨none⟩ "u1").1 = "u1" ∧
    (invocationUUID ⟨none⟩ "u1").2.uuidFile = some "u1" ∧
    (invocationUUID ((invocationUUID ⟨none⟩ "u1").2) "u2").1 = "u2" ∧
    (invocationUUID ((invocationUUID ⟨none⟩ "u1").2) "u2").1 ≠
      (invocationUUID ⟨none⟩ "u1").1 := by
  decide

/-- C4: a GET whose path contains `/sub` or `/` followed by the node
identity is answered with status 200, content type
`text/plain; charset=utf-8` and the current bytes of the subscription
artifact (whenever it is readable); every other path gets a 404 with body
`404`. -/
theorem c4_http_routing (uuid path : String) (subFile : Option String) :
    (subMatch uuid path = true →
      (do_GET uuid path subFile).status = 200 ∧
      (do_GET uuid path subFile).contentType = some "text/plain; charset=utf-8" ∧
      ∀ b, subFile = some b → (do_GET uuid path subFile).body = b) ∧
    (subMatch uuid path = false →
      do_GET uuid path subFile = { status := 404, contentType := none, body := "404" }) := by
  constructor <;> intro h
  · refine ⟨by simp [do_GET, h], by simp [do_GET, h], ?_⟩
    intro b hb
    simp [do_GET, h, hb]
  · simp [do_GET, h]

theorem c4_http_routing_witness :
    (do_GET "0abc" "/sub?x=1" (some "tuic://line\n")).status = 200 ∧
    (do_GET "0abc" "/sub?x=1" (some "tuic://line\n")).body = "tuic://line\n" ∧
    do_GET "0abc" "/health" (some "x") = { status := 404, contentType := none, body := "404" } :=
  ⟨((c4_http_routing "0abc" "/sub?x=1" (some "tuic://line\n")).1 (by decide)).1,
   ((c4_http_routing "0abc" "/sub?x=1" (some "tuic://line\n")).1 (by decide)).2.2
     "tuic://line\n" rfl,
   (c4_http_routing "0abc" "/health" (some "x")).2 (by decide)⟩

/-- C6: for a single-element port list with a non-empty port, the plan
gives that port to exactly one UDP inbound — TUIC when the compiled-in
choice is "tuic", Hysteria2 otherwise, the other one disabled — and to
the HTTP endpoint, and the Reality inbound is disabled (absent from the
generated inbounds). -/
theorem c6_single_port_plan (p choice uuid certP keyP pk : String) (ap : Int)
    (hp : p ≠ "") :
    ∃ pl, portPlan [p] choice = some pl ∧
      pl.http = p ∧ pl.reality = "" ∧ pl.single = true ∧
      ((choice = "tuic" ∧ pl.tuic = p ∧ pl.hy2 = "") ∨
        (choice ≠ "tuic" ∧ pl.hy2 = p ∧ pl.tuic = "")) ∧
      inboundTags (buildInbounds pl uuid certP keyP pk ap) =
        (if choice = "tuic" then ["tuic-in"] else ["hy2-in"]) ++ ["vless-argo-in"] := by
  by_cases hc : choice = "tuic"
  · subst hc
    refine ⟨_, rfl, rfl, rfl, rfl, Or.inl ⟨rfl, rfl, rfl⟩, ?_⟩
    rw [inboundTags_buildInbounds]
    simp [hp]
  · refine ⟨_, rfl, rfl, rfl, rfl, Or.inr ⟨hc, by simp [hc], by simp [hc]⟩, ?_⟩
    rw [inboundTags_buildInbounds]
    simp [hp, hc]

theorem c6_single_port_plan_witness :
    ∃ pl, portPlan ["443"] "hy2" = some pl ∧
      pl.http = "443" ∧ pl.reality = "" ∧ pl.single = true ∧
      ((("hy2" : String) = "tuic" ∧ pl.tuic = "443" ∧ pl.hy2 = "") ∨
        (("hy2" : String) ≠ "tuic" ∧ pl.hy2 = "443" ∧ pl.tuic = "")) ∧
      inboundTags (buildInbounds pl "u" "c.pem" "k.key" "pk" 8081) =
        (if ("hy2" : String) = "tuic" then ["tuic-in"] else ["hy2-in"]) ++ ["vless-argo-in"] :=
  c6_single_port_plan "443" "hy2" "u" "c.pem" "k.key" "pk" 8081 (by decide)

/-- C8: on a matching route with the subscription artifact missing or
unreadable, the responder still answers (no crash in the model: `do_GET`
is total) with the literal body `error`, and — the status line having
been sent before the read is attempted — with status 200. -/
theorem c8_missing_artifact (uuid path : String) (h : subMatch uuid path = true) :
    do_GET uuid path none =
      { status := 200, contentType := some "text/plain; charset=utf-8", body := "error" } := by
  simp [do_GET, h]

theorem c8_missing_artifact_witness :
    do_GET "u1" "/sub" none =
      { status := 200, contentType := some "text/plain; charset=utf-8", body := "error" } :=
  c8_missing_artifact "u1" "/sub" (by decide)

/-- C9: if the destination already exists with its executable bit set,
`download_file` returns `True` without downloading; hence two consecutive
calls on such a destination perform zero downloads and both return
`True`. -/
theorem c9_download_idempotent (net1 net2 : Bool) (r1 r2 : Option Bool)
    (dest : Option Bool) (h : dest = some true) :
    (download_file net1 r1 dest).1 = true ∧
    (download_file net1 r1 dest).2.2 = 0 ∧
    (download_file net2 r2 (download_file net1 r1 dest).2.1).1 = true ∧
    (download_file net2 r2 (download_file net1 r1 dest).2.1).2.2 = 0 := by
  subst h
  simp [download_file]

theorem c9_download_idempotent_witness :
    (download_file false (some false) (some true)).1 = true ∧
    (download_file false (some false) (some true)).2.2 = 0 ∧
    (download_file true none (download_file false (some false) (some true)).2.1).1 = true ∧
    (download_file true none (download_file false (some false) (some true)).2.1).2.2 = 0 :=
  c9_download_idempotent false true (some false) none (some true) rfl

/-- C10: port-list elements beyond the first two are irrelevant — two
lists of length ≥ 2 agreeing on elements 0 and 1 produce the same port
plan, the same configuration document and the same rendered
subscription. -/
theorem c10_extra_ports_irrelevant (l1 l2 : List String)
    (choice uuid ip isp pk cf ad certP keyP privKey : String) (ap : Int)
    (hl1 : 2 ≤ l1.length) (hl2 : 2 ≤ l2.length)
    (h0 : l1[0]? = l2[0]?) (h1 : l1[1]? = l2[1]?) :
    portPlan l1 choice = portPlan l2 choice ∧
    ((portPlan l1 choice).map fun pl => buildConfig pl uuid certP keyP privKey ap) =
      ((portPlan l2 choice).map fun pl => buildConfig pl uuid certP keyP privKey ap) ∧
    ((portPlan l1 choice).map fun pl => generate_sub pl uuid ip isp pk cf ad) =
      ((portPlan l2 choice).map fun pl => generate_sub pl uuid ip isp pk cf ad) := by
  rcases l1 with _ | ⟨a1, _ | ⟨b1, r1⟩⟩
  · simp at hl1
  · simp at hl1
  · rcases l2 with _ | ⟨a2, _ | ⟨b2, r2⟩⟩
    · simp at hl2
    · simp at hl2
    · simp only [List.getElem?_cons_zero, List.getElem?_cons_succ,
        Option.some.injEq] at h0 h1
      subst h0
      subst h1
      exact ⟨rfl, rfl, rfl⟩

theorem c10_extra_ports_irrelevant_witness :
    portPlan ["443", "8443", "9000", "9001"] "hy2" = portPlan ["443", "8443"] "hy2" :=
  (c10_extra_ports_irrelevant ["443", "8443", "9000", "9001"] ["443", "8443"]
    "hy2" "u" "1.2.3.4" "Node" "pk" "cf" "" "c.pem" "k.key" "pv" 8081
    (by decide) (by decide) (by decide) (by decide)).1

/-- C5: subscription rendering emits a protocol's URI line exactly when
that protocol's port (TUIC, Hysteria2, Reality) or domain (Argo tunnel)
input is a non-empty string; in particular, when the TUIC port is empty
no rendered line starts with `tuic://`. -/
theorem c5_sub_line_iff (pl : PortPlan) (uuid ip isp pk cf ad : String) :
    (mkTuicLine uuid ip pl.tuic isp ∈ generate_sub pl uuid ip isp pk cf ad ↔ pl.tuic ≠ "") ∧
    (mkHy2Line uuid ip pl.hy2 isp ∈ generate_sub pl uuid ip isp pk cf ad ↔ pl.hy2 ≠ "") ∧
    (mkRealityLine uuid ip pl.reality pk isp ∈ generate_sub pl uuid ip isp pk cf ad ↔
      pl.reality ≠ "") ∧
    (mkArgoLine uuid cf ad isp ∈ generate_sub pl uuid ip isp pk cf ad ↔ ad ≠ "") ∧
    (pl.tuic = "" →
      ∀ l ∈ generate_sub pl uuid ip isp pk cf ad, strStartsWith l "tuic://" = false) := by
  have hmem : ∀ y, y ∈ generate_sub pl uuid ip isp pk cf ad ↔
      (pl.tuic ≠ "" ∧ y = mkTuicLine uuid ip pl.tuic isp) ∨
      (pl.hy2 ≠ "" ∧ y = mkHy2Line uuid ip pl.hy2 isp) ∨
      (pl.reality ≠ "" ∧ y = mkRealityLine uuid ip pl.reality pk isp) ∨
      (ad ≠ "" ∧ y = mkArgoLine uuid cf ad isp) := by
    intro y
    simp [generate_sub, List.mem_append, mem_ite_singleton]
  refine ⟨⟨fun hm => ?_, fun h => (hmem _).mpr (Or.inl ⟨h, rfl⟩)⟩,
    ⟨fun hm => ?_, fun h => (hmem _).mpr (Or.inr (Or.inl ⟨h, rfl⟩))⟩,
    ⟨fun hm => ?_, fun h => (hmem _).mpr (Or.inr (Or.inr (Or.inl ⟨h, rfl⟩)))⟩,
    ⟨fun hm => ?_, fun h => (hmem _).mpr (Or.inr (Or.inr (Or.inr ⟨h, rfl⟩)))⟩, ?_⟩
  · rcases (hmem _).mp hm with ⟨h, _⟩ | ⟨_, he⟩ | ⟨_, he⟩ | ⟨_, he⟩
    · exact h
    · exact absurd he (mkTuic_ne_mkHy2 _ _ _ _ _ _ _ _)
    · exact absurd he (mkTuic_ne_mkReality _ _ _ _ _ _ _ _ _)
    · exact absurd he (mkTuic_ne_mkArgo _ _ _ _ _ _ _ _)
  · rcases (hmem _).mp hm with ⟨_, he⟩ | ⟨h, _⟩ | ⟨_, he⟩ | ⟨_, he⟩
    · exact absurd he.symm (mkTuic_ne_mkHy2 _ _ _ _ _ _ _ _)
    · exact h
    · exact absurd he (mkHy2_ne_mkReality _ _ _ _ _ _ _ _ _)
    · exact absurd he (mkHy2_ne_mkArgo _ _ _ _ _ _ _ _)
  · rcases (hmem _).mp hm with ⟨_, he⟩ | ⟨_, he⟩ | ⟨h, _⟩ | ⟨_, he⟩
    · exact absurd he.symm (mkTuic_ne_mkReality _ _ _ _ _ _ _ _ _)
    · exact absurd he.symm (mkHy2_ne_mkReality _ _ _ _ _ _ _ _ _)
    · exact h
    · exact absurd he (mkReality_ne_mkArgo _ _ _ _ _ _ _ _)
  · rcases (hmem _).mp hm with ⟨_, he⟩ | ⟨_, he⟩ | ⟨_, he⟩ | ⟨h, _⟩
    · exact absurd he.symm (mkTuic_ne_mkArgo _ _ _ _ _ _ _ _)
    · exact absurd he.symm (mkHy2_ne_mkArgo _ _ _ _ _ _ _ _)
    · exact absurd he.symm (mkReality_ne_mkArgo _ _ _ _ _ _ _ _)
    · exact h
  · intro ht l hl
    rcases (hmem l).mp hl with ⟨h, _⟩ | ⟨_, rfl⟩ | ⟨_, rfl⟩ | ⟨_, rfl⟩
    · exact absurd ht h
    · exact tuicPrefix_mkHy2 _ _ _ _
    · exact tuicPrefix_mkReality _ _ _ _ _
    · exact tuicPrefix_mkArgo _ _ _ _

theorem c5_sub_line_iff_witness :
    mkTuicLine "u" "1.2.3.4" "443" "Node" ∈
      generate_sub ⟨"443", "", "", "443", true⟩ "u" "1.2.3.4" "Node" "pk" "cf" "" :=
  ((c5_sub_line_iff ⟨"443", "", "", "443", true⟩ "u" "1.2.3.4" "Node" "pk" "cf" "").1).mpr
    (by decide)

theorem runPolls_none (log : Nat → Option String) (d : String) :
    ∀ r k, (∀ j, k < j → j ≤ k + r → (log j).bind searchTunnel = none) →
      runPolls log k r d = (d, k + r) := by
  intro r
  induction r with
  | zero => intro k _; simp [runPolls]
  | succ r ih =>
    intro k h
    have hk : (log (k + 1)).bind searchTunnel = none := h (k + 1) (by omega) (by omega)
    simp only [runPolls, hk]
    rw [ih (k + 1) (fun j hj1 hj2 => h j (by omega) (by omega))]
    congr 1
    omega

theorem runPolls_match (log : Nat → Option String) (d : String) :
    ∀ r k i m, k < i → i ≤ k + r →
      (log i).bind searchTunnel = some m →
      (∀ j, k < j → j < i → (log j).bind searchTunnel = none) →
      runPolls log k r d = (stripHttps m, i) := by
  intro r
  induction r with
  | zero => intro k i m h1 h2 _ _; omega
  | succ r ih =>
    intro k i m h1 h2 hm hnone
    by_cases hik : i = k + 1
    · subst hik
      simp only [runPolls, hm]
    · have hk1 : (log (k + 1)).bind searchTunnel = none := hnone (k + 1) (by omega) (by omega)
      simp only [runPolls, hk1]
      exact ih (k + 1) i m (by omega) (by omega) hm (fun j a b => hnone j (by omega) b)

theorem takeWhile_mem_imp {p : Char → Bool} : ∀ {l : List Char} {c : Char},
    c ∈ l.takeWhile p → p c = true := by
  intro l
  induction l with
  | nil => intro c h; simp [List.takeWhile] at h
  | cons a l ih =>
    intro c h
    rw [List.takeWhile_cons] at h
    by_cases ha : p a = true
    · rw [if_pos ha] at h
      rcases List.mem_cons.mp h with rfl | h2
      · exact ha
      · exact ih h2
    · rw [if_neg ha] at h
      simp at h

theorem searchTunnelAux_sound : ∀ cs m, searchTunnelAux cs = some m →
    ∃ t, t ≠ [] ∧ (∀ c ∈ t, tunnelChar c = true) ∧
      m = "https://".data ++ t ++ ".trycloudflare.com".data := by
  intro cs
  induction cs with
  | nil => intro m h; simp [searchTunnelAux] at h
  | cons c cs ih =>
    intro m h
    rw [searchTunnelAux] at h
    cases htm : tryTunnelMatch (c :: cs) with
    | some m2 =>
      rw [htm] at h
      obtain rfl : m2 = m := by injection h
      rw [tryTunnelMatch] at htm
      split at htm
      · split at htm
        · injection htm with htm2
          refine ⟨((c :: cs).drop 8).takeWhile tunnelChar, ?_, ?_, htm2.symm⟩
          · rename_i hcond
            intro hemp
            rw [hemp] at hcond
            simp at hcond
          · intro ch hch
            exact takeWhile_mem_imp hch
        · exact absurd htm (by simp)
      · exact absurd htm (by simp)
    | none =>
      rw [htm] at h
      exact ih m h

theorem stripHttps_of_match (t : List Char) :
    stripHttps ⟨"https://".data ++ t ++ ".trycloudflare.com".data⟩ =
      (⟨t ++ ".trycloudflare.com".data⟩ : String) := by
  rw [stripHttps]
  rw [if_pos]
  · show (⟨(("https://".data ++ t) ++ ".trycloudflare.com".data).drop 8⟩ : String) = _
    rw [List.append_assoc]
    have h8 : ("https://".data).length = 8 := by decide
    rw [show (8 : Nat) = ("https://".data).length from h8.symm, List.drop_left]
  · show ("https://".data).isPrefixOf (("https://".data ++ t) ++ ".trycloudflare.com".data) = true
    rw [List.append_assoc]
    exact List.isPrefixOf_iff_prefix.mpr (List.prefix_append _ _)

/-- C7 (amended): in quick-tunnel mode the log is polled once per
time-unit for at most 30 polls. If a `<token>.trycloudflare.com` URL first
matches on poll k (k ≤ 30), polling stops right there and the resolved
domain is exactly that hostname (the matched URL minus its `https://`
prefix, a non-empty `[a-zA-Z0-9-]` token followed by
`.trycloudflare.com`). If no poll matches, all 30 polls run and the
resolved domain is the configured `ARGO_DOMAIN` override — the empty
string whenever that override is unset — and provisioning continues. -/
theorem c7_quick_tunnel (log : Nat → Option String) (override : String) :
    ((∀ j, 1 ≤ j → j ≤ 30 → (log j).bind searchTunnel = none) →
      quickTunnelResolve log override = (override, 30)) ∧
    (∀ k m, 1 ≤ k → k ≤ 30 → (log k).bind searchTunnel = some m →
      (∀ j, 1 ≤ j → j < k → (log j).bind searchTunnel = none) →
      quickTunnelResolve log override = (stripHttps m, k) ∧
      ∃ t, t ≠ [] ∧ (∀ c ∈ t, tunnelChar c = true) ∧
        stripHttps m = (⟨t ++ ".trycloudflare.com".data⟩ : String)) := by
  constructor
  · intro h
    exact runPolls_none log override 30 0 (fun j h1 h2 => h j (by omega) (by omega))
  · intro k m h1 h2 hm hnone
    refine ⟨runPolls_match log override 30 0 k m (by omega) (by omega) hm
      (fun j a b => hnone j (by omega) b), ?_⟩
    cases hlk : log k with
    | none =>
      rw [hlk] at hm
      exact Option.noConfusion hm
    | some s =>
      rw [hlk] at hm
      replace hm : searchTunnel s = some m := hm
      rw [searchTunnel] at hm
      rcases Option.map_eq_some'.mp hm with ⟨l, hl, rfl⟩
      obtain ⟨t, ht1, ht2, rfl⟩ := searchTunnelAux_sound s.data l hl
      exact ⟨t, ht1, ht2, stripHttps_of_match t⟩

theorem c7_quick_tunnel_witness :
    quickTunnelResolve
      (fun j => if j = 5 then some "INF https://abcde12345.trycloudflare.com registered" else none)
      "" = (stripHttps "https://abcde12345.trycloudflare.com", 5) :=
  ((c7_quick_tunnel
      (fun j => if j = 5 then some "INF https://abcde12345.trycloudflare.com registered" else none)
      "").2 5 "https://abcde12345.trycloudflare.com" (by decide) (by decide) (by decide)
      (fun j _ hj2 => by
        have hj : j ≠ 5 := by omega
        simp [hj])).1

/-- C7 counterexample: quick mode (empty `ARGO_TOKEN`) with the
`ARGO_DOMAIN` override set to `fixed.example.com` and a log that never
matches: after 30 polls the resolved domain is `fixed.example.com`, not
the empty string the claim asserts. -/
theorem c7_override_cex :
    quickTunnelResolve (fun _ => some "") "fixed.example.com" = ("fixed.example.com", 30) ∧
    ("fixed.example.com" : String) ≠ "" := by
  exact ⟨rfl, by decide⟩

theorem sanity_portPlan_two :
    portPlan ["443", "8443"] "hy2" = some ⟨"443", "8443", "443", "8443", false⟩ := rfl

theorem sanity_pySplit : pySplit " 443  8443 " = ["443", "8443"] := by decide

theorem sanity_search :
    searchTunnel "INF https://ab-c5.trycloudflare.com ok" =
      some "https://ab-c5.trycloudflare.com" := by decide
